import Mathlib

/-!
Shallow embedding of the classification-and-routing engine of the
agentBackend repository: the task router with its per-task timeout
(`backend/opencode/agent.py`), the keyword classifiers
(`backend/opencode/agent.py`, `backend/tasks.py`, `backend/works.py`),
the real-time information cascade (`backend/realTimeSearch.py`) with its
TTL cache, and the email confirmation flow of `message_handler`
(`backend/opencode/agent.py`).

Conventions used throughout:
* Python dicts whose values are strings are embedded as association lists
  `PyDict := List (String × String)`.
* External collaborators (LLM calls, HTTP requests, the mail provider,
  the system clock, the IANA timezone database) are injected as fields of
  environment structures; a collaborator that may raise is given an
  `Except` result type.
* A Python exception that escapes a function is an `Except.error`; code
  that catches exceptions pattern-matches on it.
* `\w`, `\s` character classes and `str.lower`/`str.title` are modelled
  over their ASCII fragments, which covers every string the program
  manipulates in the claims.
-/

/-- `leadsWith needle cs`: `needle` is an initial segment of `cs`. -/
def leadsWith : List Char → List Char → Bool
  | [], _ => true
  | _ :: _, [] => false
  | a :: as, b :: bs => a = b && leadsWith as bs

/-- `hasSub cs needle`: `needle` occurs contiguously inside `cs`. -/
def hasSub (cs needle : List Char) : Bool :=
  match cs with
  | [] => needle.isEmpty
  | _ :: rest => leadsWith needle cs || hasSub rest needle

/-- Python `needle in haystack` substring test. -/
def containsStr (haystack needle : String) : Bool :=
  hasSub haystack.toList needle.toList

/-- Python `str.lower()` (ASCII fragment), written with structural
recursion so that concrete instances reduce. -/
def pyLower (s : String) : String :=
  String.mk (s.toList.map Char.toLower)

/-- Python `str.upper()` (ASCII fragment). -/
def pyUpper (s : String) : String :=
  String.mk (s.toList.map Char.toUpper)

/-- Python `str.strip()`: drop whitespace from both ends. -/
def pyStrip (s : String) : String :=
  String.mk
    (((s.toList.dropWhile Char.isWhitespace).reverse.dropWhile
        Char.isWhitespace).reverse)

/-- The suffix following the last occurrence of `sep` in the list
(`none` when `sep` does not occur). -/
def lastSuffixAfter (sep : List Char) : List Char → Option (List Char)
  | [] => none
  | c :: rest =>
    match lastSuffixAfter sep rest with
    | some r => some r
    | none =>
      if leadsWith sep (c :: rest) then some ((c :: rest).drop sep.length)
      else none

/-- Python `s.split(sep)[-1]` for a non-empty separator: everything
after the last occurrence of `sep`, or `s` itself when `sep` is
absent. -/
def pySplitLast (s sep : String) : String :=
  match lastSuffixAfter sep.toList s.toList with
  | some r => String.mk r
  | none => s

/-- Python `s.replace(a, b)` for single-character `a` and `b`. -/
def charReplace (s : String) (a b : Char) : String :=
  String.mk (s.toList.map (fun c => if c = a then b else c))

/-- Python dict with string keys and values, as an association list
(first binding wins on lookup, matching dict semantics after our
insert-by-prepend discipline). -/
abbrev PyDict := List (String × String)

/-- `backend/realTimeSearch.py` `error_response(message)`: the uniform
terminal error dict.  `ts` stands for `datetime.utcnow().isoformat()`. -/
def error_response (ts msg : String) : PyDict :=
  [("status", "error"), ("message", msg), ("type", "error"), ("timestamp", ts)]

/-! ## The TTL cache

`backend/realTimeSearch.py` line 22: `CACHE = TTLCache(maxsize=1000, ttl=600)`.

Modelled from the spec: the `cachetools.TTLCache` store itself is an
external dependency, not part of this repository's sources; §4.5 of the
spec fixes its contract (`get` misses when the key is absent or its
expiry has passed, expired entries are purged on read, capacity is
bounded with oldest-inserted eviction).  Entries record their absolute
expiry `expires_at = now + ttl`; an entry is live at time `t` iff
`t < expires_at`. -/
structure TTLCacheM (α : Type) where
  entries : List (String × α × Nat)

/-- Capacity configured at `backend/realTimeSearch.py:22`. -/
def CACHE_MAXSIZE : Nat := 1000

/-- TTL (seconds) configured at `backend/realTimeSearch.py:22`; the
comment there reads "Configure cache with 10 minute TTL". -/
def CACHE_TTL : Nat := 600

/-- `CACHE[key] = value`: replace any binding of `key`, evict the
oldest-inserted entry when at capacity, insert with expiry `now + ttl`. -/
def cachePut {α : Type} (c : TTLCacheM α) (now ttl : Nat) (k : String) (v : α) :
    TTLCacheM α :=
  let pruned := c.entries.filter (fun e => e.1 ≠ k)
  let pruned := if CACHE_MAXSIZE ≤ pruned.length then pruned.dropLast else pruned
  ⟨(k, v, now + ttl) :: pruned⟩

/-- `key in CACHE` followed by `CACHE[key]`: purge expired entries, then
look the key up.  Returns the hit (if any) together with the purged
store. -/
def cacheGet {α : Type} (c : TTLCacheM α) (now : Nat) (k : String) :
    Option α × TTLCacheM α :=
  let live := c.entries.filter (fun e => now < e.2.2)
  ((live.find? (fun e => e.1 = k)).map (fun e => e.2.1), ⟨live⟩)

/-! ## `backend/realTimeSearch.py` -/

namespace RTS

/-- `zone.split('/')[-1]` (`backend/realTimeSearch.py:66`). -/
def lastComp (z : String) : String :=
  pySplitLast z "/"

/-- Helper for `pythonTitle`: the Boolean records whether the previous
character was cased (alphabetic in the ASCII fragment). -/
def pythonTitleAux : Bool → List Char → List Char
  | _, [] => []
  | prevCased, c :: cs =>
    (if c.isAlpha then (if prevCased then c.toLower else c.toUpper) else c)
      :: pythonTitleAux c.isAlpha cs

/-- Python `str.title()` over the ASCII fragment: uppercase a letter that
starts a run of letters, lowercase the remaining letters of the run. -/
def pythonTitle (s : String) : String :=
  String.mk (pythonTitleAux false s.toList)

/-- City/region alias table, `backend/realTimeSearch.py:35`. -/
def timezone_mappings : List (String × String) :=
  [("nyc", "America/New_York"), ("la", "America/Los_Angeles"),
   ("chicago", "America/Chicago"), ("london", "Europe/London"),
   ("paris", "Europe/Paris"), ("berlin", "Europe/Berlin"),
   ("tokyo", "Asia/Tokyo"), ("singapore", "Asia/Singapore"),
   ("dubai", "Asia/Dubai"), ("utc", "UTC")]

/-- Country-level alias table, `backend/realTimeSearch.py:53`. -/
def country_zones : List (String × List String) :=
  [("us", ["America/New_York", "America/Chicago", "America/Denver",
           "America/Los_Angeles"]),
   ("india", ["Asia/Kolkata"]),
   ("china", ["Asia/Shanghai"]),
   ("russia", ["Europe/Moscow", "Asia/Vladivostok"])]

/-- External collaborators of the time-resolution path: the wall clock
(`datetime.now(tz).strftime('%I:%M %p %Z')` per zone name),
`datetime.utcnow().isoformat()`, the pytz zone database
(`pytz.timezone(name)` succeeding or raising `UnknownTimeZoneError`),
the nominatim geocoder (first search hit as `(lat, lon)`, `none` for an
empty result list, `Except.error` for a network/JSON failure), and
timeapi.io (`(time, timeZone)` fields of the JSON reply). -/
structure TimeEnv where
  fmtTime : String → String
  utcnow : String
  isKnownZone : String → Bool
  nominatim : String → Except Unit (Option (String × String))
  timeApi : String → String → Except Unit (String × String)

/-- `fetch_time_from_api(location)` (`backend/realTimeSearch.py:100`):
geocode the location, then ask timeapi.io for the local time at the
coordinates.  Any exception in the `try` block (network failure,
malformed JSON, missing fields) lands in the generic handler which
returns `error_response("Could not determine time for this location")`;
an empty geocoder result list returns
`error_response("Location not found")`.  No cache write happens here. -/
def fetch_time_from_api (env : TimeEnv) (location : String) : PyDict :=
  match env.nominatim location with
  | .error _ => error_response env.utcnow "Could not determine time for this location"
  | .ok none => error_response env.utcnow "Location not found"
  | .ok (some (lat, lon)) =>
    match env.timeApi lat lon with
    | .error _ => error_response env.utcnow "Could not determine time for this location"
    | .ok (time, timeZone) =>
      [("status", "success"),
       ("data", "🕒 " ++ pythonTitle location ++ ": " ++ time ++ " " ++ timeZone),
       ("type", "time"), ("source", "timeapi.io"), ("timestamp", env.utcnow)]

/-- `get_current_time(location)` (`backend/realTimeSearch.py:24`):
normalize, consult the cache, then the country table, then the
city-alias table / verbatim pytz zone name, finally fall back to the
geolocation API.  Successful local resolutions are cached with the
store's fixed 600-second TTL.  The surrounding `except Exception`
handler is unreachable in this model because every collaborator failure
is already returned as a value. -/
def get_current_time (env : TimeEnv) (cache : TTLCacheM PyDict) (now : Nat)
    (location : String) : PyDict × TTLCacheM PyDict :=
  let loc := pyLower (pyStrip location)
  let cache_key := "time_" ++ loc
  match cacheGet cache now cache_key with
  | (some r, cache) => (r, cache)
  | (none, cache) =>
    match country_zones.lookup loc with
    | some zones =>
      let current_times := zones.map (fun z => "• " ++ lastComp z ++ ": " ++ env.fmtTime z)
      let result : PyDict :=
        [("status", "success"), ("data", String.intercalate "\n" current_times),
         ("type", "time"), ("source", "timezone_db"), ("timestamp", env.utcnow)]
      (result, cachePut cache now CACHE_TTL cache_key result)
    | none =>
      let tz_name := (timezone_mappings.lookup loc).getD loc
      if env.isKnownZone tz_name then
        let result : PyDict :=
          [("status", "success"),
           ("data", "🕒 " ++ pythonTitle (charReplace tz_name '_' ' ') ++ ": " ++ env.fmtTime tz_name),
           ("type", "time"), ("source", "timezone_db"), ("timestamp", env.utcnow)]
        (result, cachePut cache now CACHE_TTL cache_key result)
      else
        (fetch_time_from_api env loc, cache)

/-- `required_fields` table of `validate_request_info`
(`backend/realTimeSearch.py:207`). -/
def required_fields : List (String × List String) :=
  [("weather", ["location"]), ("time", ["location"]), ("news", ["topic"]),
   ("stocks", ["symbol"]), ("sports", ["team"]), ("flights", ["number"])]

/-- `validate_request_info(request_info)` (`backend/realTimeSearch.py:206`). -/
def validate_request_info (request_info : PyDict) : Bool :=
  let req_type := pyLower ((request_info.lookup "type").getD "")
  match required_fields.lookup req_type with
  | none => false
  | some fields => fields.all (fun f => (request_info.lookup f).isSome)

/-- One Brave search hit: `title` and `url` are read unconditionally,
`description` via `res.get('description', '')`. -/
structure WebResult where
  title : String
  url : String
  description : Option String

/-- External collaborators of `real_time_search`: whether
`initialize_gemini()` returned a truthy model, the composite
"generate analysis + strip code fences + `json.loads`" step (an
`Except.error` is a `JSONDecodeError`/`AttributeError`), and the Brave
web-search request of `fallback_search`. -/
structure RTEnv where
  geminiOk : Bool
  analysis : String → Except Unit PyDict
  brave : String → Except Unit (List WebResult)
  utcnow : String

/-- `format_web_results(results)` (`backend/realTimeSearch.py:288`). -/
def format_web_results (results : List WebResult) : String :=
  String.intercalate "\n"
    (results.map (fun res =>
      "🌐 " ++ res.title ++ "\n" ++ res.url ++ "\n" ++ res.description.getD ""))

/-- `fallback_search(query)` (`backend/realTimeSearch.py:267`): a Brave
web search returned with `status="partial"`; any exception becomes
`error_response("Could not retrieve information")`. -/
def fallback_search (env : RTEnv) (query : String) : PyDict :=
  match env.brave query with
  | .ok results =>
    [("status", "partial"), ("type", "web"), ("data", format_web_results results),
     ("source", "Brave Search"), ("timestamp", env.utcnow)]
  | .error _ => error_response env.utcnow "Could not retrieve information"

/-- `real_time_search(user_prompt)` (`backend/realTimeSearch.py:144`).
If Gemini initialization fails: `error_response("Service unavailable")`.
If the analysis step raises `JSONDecodeError`/`AttributeError`, or its
parsed output fails `validate_request_info`: `fallback_search`.
Otherwise the code builds the `handlers` dict (lines 190–197); that dict
literal names `handle_stocks`, `handle_sports`, `handle_flights` and
`handle_unknown_type`, none of which is defined anywhere in the module,
so evaluating it raises `NameError`, which the enclosing
`except Exception` (line 202) converts to
`error_response("Failed to process request")`.  Consequently no
category handler is ever invoked from here. -/
def real_time_search (env : RTEnv) (user_prompt : String) : PyDict :=
  if !env.geminiOk then error_response env.utcnow "Service unavailable"
  else
    match env.analysis user_prompt with
    | .error _ => fallback_search env user_prompt
    | .ok request_info =>
      if validate_request_info request_info then
        error_response env.utcnow "Failed to process request"
      else
        fallback_search env user_prompt

end RTS

/-! ## `backend/opencode/agent.py` — `TaskRouter.handle_task` -/

namespace Agent

/-- Runtime behaviour of one capability-handler coroutine, as observed by
`asyncio.wait_for`: it either completes after `duration` seconds —
returning a value (`Except.ok`; `none` models `_handle_conversation`
returning Python `None`) or raising an exception whose rendered message
is `e` (`Except.error e`) — or it never completes. -/
inductive HandlerOutcome where
  | completes (duration : Nat) (result : Except String (Option String))
  | diverges

/-- The behaviours of the seven registered handler coroutines for one
invocation; they stand for `_handle_web_search`, `_handle_real_time`,
`_handle_email`, `_handle_todo`, `_handle_weather`, `_handle_web_scrape`
and `_handle_conversation`, whose bodies consist of external
collaborator calls. -/
structure RouterEnv where
  webSearch : HandlerOutcome
  realTime : HandlerOutcome
  email : HandlerOutcome
  todo : HandlerOutcome
  weather : HandlerOutcome
  webScrape : HandlerOutcome
  conversation : HandlerOutcome

/-- `self.task_handlers` registry (`backend/opencode/agent.py:43`). -/
def task_handlers (env : RouterEnv) : List (String × HandlerOutcome) :=
  [("WEBSEARCH", env.webSearch), ("REALTIME", env.realTime),
   ("EMAIL", env.email), ("TODO", env.todo), ("WEATHER", env.weather),
   ("WEBSCRAPE", env.webScrape), ("CONVERSATION", env.conversation)]

/-- `self.task_handlers.get(task_type, self._handle_conversation)`
(`backend/opencode/agent.py:99`). -/
def selectedHandler (env : RouterEnv) (task_type : String) : HandlerOutcome :=
  ((task_handlers env).lookup task_type).getD env.conversation

/-- The message returned from the `except asyncio.TimeoutError` branch
(`backend/opencode/agent.py:106`). -/
def timeoutMessage : String :=
  "This request is taking longer than expected. Please try again."

/-- `TaskRouter.handle_task(task_type, details, agent)`
(`backend/opencode/agent.py:96`): look the handler up with
`_handle_conversation` as default, run it under
`asyncio.wait_for(…, timeout=self.config.TASK_TIMEOUT)`; a
`TimeoutError` yields `timeoutMessage`, any other exception `e` yields
`"Sorry, I encountered an error: " ++ e`.  `timeout` stands for
`self.config.TASK_TIMEOUT` (configured outside this module). -/
def handle_task (timeout : Nat) (env : RouterEnv) (task_type : String) :
    Option String :=
  match selectedHandler env task_type with
  | .diverges => some timeoutMessage
  | .completes duration result =>
    if duration ≤ timeout then
      match result with
      | .ok v => v
      | .error e => some ("Sorry, I encountered an error: " ++ e)
    else some timeoutMessage

/-- The selected handler finishes (with a value or an exception) within
the time budget `t`. -/
def completesWithin (h : HandlerOutcome) (t : Nat) : Prop :=
  ∃ d r, h = .completes d r ∧ d ≤ t

end Agent

/-! ## `backend/tasks.py` and `backend/works.py` -/

/-- The classifier output shape (a dict with a `type` and a `details`
entry) shared by all three `classify_request` implementations.  (Named
`PyTask` because the name `Task` is taken by the Lean core library.) -/
structure PyTask where
  type : String
  details : PyDict
deriving DecidableEq

namespace Tasks

/-- `TaskRouter.classify_request(user_prompt)` (`backend/tasks.py:45`):
ordered keyword tests on the lower-cased prompt; `"weather in"` prompts
get `details["city"]` from `prompt_lower.split("weather in")[-1].strip()`. -/
def classify_request (user_prompt : String) : PyTask :=
  let prompt_lower := pyLower user_prompt
  if containsStr prompt_lower "search" then
    if containsStr prompt_lower "web" then ⟨"WEBSEARCH", [("query", user_prompt)]⟩
    else ⟨"REALTIME", []⟩
  else if containsStr prompt_lower "email" || containsStr prompt_lower "send email" then
    ⟨"EMAIL", []⟩
  else if containsStr prompt_lower "todo" then ⟨"TODO", [("query", user_prompt)]⟩
  else if containsStr prompt_lower "weather" then
    ⟨"WEATHER",
     [("city",
       if containsStr prompt_lower "weather in" then
         pyStrip (pySplitLast prompt_lower "weather in")
       else "")]⟩
  else ⟨"CONVERSATION", []⟩

/-- A Python exception escaping a routed collaborator call, split by the
`except` clauses of `analyze_prompt_and_route_task`
(`backend/tasks.py:115`). -/
inductive PyExc where
  | jsonDecodeError (msg : String)
  | keyError (msg : String)
  | other (msg : String)
deriving DecidableEq

/-- The collaborators invoked by `analyze_prompt_and_route_task`, one
per routing case, each returning a result dict or raising. -/
structure TasksEnv where
  real_time_search : String → Except PyExc PyDict
  web_search : String → Except PyExc PyDict
  send_email_interactive : String → Except PyExc PyDict
  todo_process : String → Except PyExc PyDict
  get_weather : String → Except PyExc PyDict
  generate_response : Except PyExc String
  generate_response_unknown : Except PyExc String

/-- The `match classification["type"].upper()` dispatch of
`analyze_prompt_and_route_task` (`backend/tasks.py:73`), up to but not
including its exception handling.  The `CONVERSATION` case wraps the
chat response as `{"status": "success", "response": …}`; the default
case (unreachable for outputs of `classify_request`) wraps it as
`{"status": "error", "message": …}`. -/
def routedCall (env : TasksEnv) (classification : PyTask) (user_prompt : String) :
    Except PyExc PyDict :=
  match pyUpper classification.type with
  | "REALTIME" => env.real_time_search user_prompt
  | "WEBSEARCH" => env.web_search ((classification.details.lookup "query").getD "")
  | "EMAIL" => env.send_email_interactive user_prompt
  | "TODO" => env.todo_process ((classification.details.lookup "query").getD "")
  | "WEATHER" => env.get_weather ((classification.details.lookup "city").getD "")
  | "CONVERSATION" =>
    env.generate_response.map (fun chat => [("status", "success"), ("response", chat)])
  | _ =>
    env.generate_response_unknown.map (fun chat => [("status", "error"), ("message", chat)])

/-- `TaskRouter.analyze_prompt_and_route_task(user_prompt)`
(`backend/tasks.py:62`): classify, dispatch, and convert any escaping
exception into an error dict per the three `except` clauses. -/
def analyze_prompt_and_route_task (env : TasksEnv) (user_prompt : String) : PyDict :=
  match routedCall env (classify_request user_prompt) user_prompt with
  | .ok d => d
  | .error (.jsonDecodeError _) =>
    [("status", "error"), ("message", "Failed to parse response")]
  | .error (.keyError m) =>
    [("status", "error"), ("message", "Missing required field: " ++ m)]
  | .error (.other m) =>
    [("status", "error"), ("message", "Error processing request: " ++ m)]

end Tasks

namespace Works

/-- `classify_request(user_prompt)` of `backend/works.py:29`.  Unlike the
sibling in `backend/tasks.py`, the email branch calls `sendemail()` for
its side effect and falls off the end of the function, so Python
returns `None` there — modelled as `Option.none`. -/
def classify_request (user_prompt : String) : Option PyTask :=
  let prompt := pyLower user_prompt
  if containsStr prompt "search" then
    if containsStr prompt "web" then some ⟨"WEBSEARCH", [("query", user_prompt)]⟩
    else some ⟨"REALTIME", []⟩
  else if containsStr prompt "email" || containsStr prompt "send email" then
    none
  else if containsStr prompt "todo" then some ⟨"TODO", [("query", user_prompt)]⟩
  else if containsStr prompt "weather" then
    some ⟨"WEATHER",
          [("city",
            if containsStr prompt "weather in" then
              pyStrip (pySplitLast prompt "weather in")
            else "")]⟩
  else some ⟨"CONVERSATION", []⟩

end Works

/-! ## `backend/opencode/agent.py` — `TaskRouter.classify_request`

The six context patterns of the classifier are ordinary `re.search`
calls.  Each pattern is built from literals, the classes `\w`
(word character: ASCII letter, digit or underscore), `\s` (whitespace)
and `\S`, a short alternation, and one greedy capture group whose
character class is disjoint from the character that follows it, so
greedy maximal-munch parsing is exactly the regex semantics and
`re.search` is a leftmost scan of start positions. -/

namespace Agent

/-- `\w` (ASCII fragment). -/
def isWordChar (c : Char) : Bool := c.isAlphanum || c == '_'

/-- `\s` (ASCII fragment). -/
def isSpaceChar (c : Char) : Bool := c.isWhitespace

/-- Greedy `p+`: one or more characters satisfying `p`, maximal munch;
returns the consumed run and the remainder. -/
def takeWhile1 (p : Char → Bool) (cs : List Char) : Option (List Char × List Char) :=
  let t := cs.takeWhile p
  if t.isEmpty then none else some (t, cs.dropWhile p)

/-- `re.search`: try the position matcher `f` at each start position,
leftmost first.  (Every pattern below needs at least one character, so
the empty final position never matches.) -/
def scanFor (f : List Char → Option (List Char)) : List Char → Option (List Char)
  | [] => none
  | c :: rest =>
    match f (c :: rest) with
    | some g => some g
    | none => scanFor f rest

/-- Group of `to (\w+@\w+\.\w+)` at one position: `\w+ "@" \w+ "." \w+`. -/
def matchAddr (cs : List Char) : Option (List Char) :=
  match takeWhile1 isWordChar cs with
  | none => none
  | some (a, r1) =>
    match r1 with
    | '@' :: r2 =>
      match takeWhile1 isWordChar r2 with
      | none => none
      | some (b, r3) =>
        match r3 with
        | '.' :: r4 =>
          match takeWhile1 isWordChar r4 with
          | none => none
          | some (c, _) => some (a ++ '@' :: b ++ '.' :: c)
        | _ => none
    | _ => none

/-- EMAIL context pattern `to (\w+@\w+\.\w+)` at one start position. -/
def tryEmailAt (cs : List Char) : Option (List Char) :=
  match cs with
  | 't' :: 'o' :: ' ' :: r => matchAddr r
  | _ => none

/-- `re.search(r"to (\w+@\w+\.\w+)", text)`, group 1. -/
def searchEmailCtx (cs : List Char) : Option (List Char) := scanFor tryEmailAt cs

/-- `(?:in|at|for) ` with the mandatory following space; the three
alternatives are tried in order (their initial characters are pairwise
distinct, so ordered matching is plain matching). -/
def matchAltSpace (cs : List Char) : Option (List Char) :=
  match cs with
  | 'i' :: 'n' :: ' ' :: r => some r
  | 'a' :: 't' :: ' ' :: r => some r
  | 'f' :: 'o' :: 'r' :: ' ' :: r => some r
  | _ => none

/-- WEATHER context pattern `weather (?:in|at|for) ([\w\s,]+)` at one
start position. -/
def tryWeatherAt (cs : List Char) : Option (List Char) :=
  match cs with
  | 'w' :: 'e' :: 'a' :: 't' :: 'h' :: 'e' :: 'r' :: ' ' :: r =>
    match matchAltSpace r with
    | some r2 =>
      (takeWhile1 (fun c => isWordChar c || isSpaceChar c || c == ',') r2).map Prod.fst
    | none => none
  | _ => none

/-- `re.search(r"weather (?:in|at|for) ([\w\s,]+)", text)`, group 1. -/
def searchWeatherCtx (cs : List Char) : Option (List Char) := scanFor tryWeatherAt cs

/-- WEBSEARCH context pattern `for ([\w\s]+)` at one start position. -/
def tryForAt (cs : List Char) : Option (List Char) :=
  match cs with
  | 'f' :: 'o' :: 'r' :: ' ' :: r =>
    (takeWhile1 (fun c => isWordChar c || isSpaceChar c) r).map Prod.fst
  | _ => none

/-- `re.search(r"for ([\w\s]+)", text)`, group 1. -/
def searchForCtx (cs : List Char) : Option (List Char) := scanFor tryForAt cs

/-- WEBSCRAPE context pattern `(https?://\S+)` at one start position:
the optional `s` and the literal `://` are disambiguated by their first
character, so no backtracking is needed. -/
def tryUrlAt (cs : List Char) : Option (List Char) :=
  match cs with
  | 'h' :: 't' :: 't' :: 'p' :: r =>
    match r with
    | 's' :: ':' :: '/' :: '/' :: r3 =>
      (takeWhile1 (fun c => !isSpaceChar c) r3).map
        (fun p => "https://".toList ++ p.1)
    | ':' :: '/' :: '/' :: r3 =>
      (takeWhile1 (fun c => !isSpaceChar c) r3).map
        (fun p => "http://".toList ++ p.1)
    | _ => none
  | _ => none

/-- `re.search(r"(https?://\S+)", text)`, group 1. -/
def searchUrlCtx (cs : List Char) : Option (List Char) := scanFor tryUrlAt cs

/-- TODO context pattern `add ([\w\s]+)` at one start position. -/
def tryAddAt (cs : List Char) : Option (List Char) :=
  match cs with
  | 'a' :: 'd' :: 'd' :: ' ' :: r =>
    (takeWhile1 (fun c => isWordChar c || isSpaceChar c) r).map Prod.fst
  | _ => none

/-- `re.search(r"add ([\w\s]+)", text)`, group 1. -/
def searchAddCtx (cs : List Char) : Option (List Char) := scanFor tryAddAt cs

/-- REALTIME context pattern `information on ([\w\s]+)` at one start
position. -/
def tryInfoOnAt (cs : List Char) : Option (List Char) :=
  match cs with
  | 'i' :: 'n' :: 'f' :: 'o' :: 'r' :: 'm' :: 'a' :: 't' :: 'i' :: 'o' :: 'n' ::
    ' ' :: 'o' :: 'n' :: ' ' :: r =>
    (takeWhile1 (fun c => isWordChar c || isSpaceChar c) r).map Prod.fst
  | _ => none

/-- `re.search(r"information on ([\w\s]+)", text)`, group 1. -/
def searchInfoOnCtx (cs : List Char) : Option (List Char) := scanFor tryInfoOnAt cs

/-- `details = {"query": match.group(1).strip()}` when the context
pattern matched, `{}` otherwise (`backend/opencode/agent.py:90`). -/
def ctxDetails : Option (List Char) → PyDict
  | some g => [("query", pyStrip (String.mk g))]
  | none => []

/-- Keyword groups of the `patterns` dict (`backend/opencode/agent.py:59`). -/
def weather_keywords : List String := ["weather", "temperature", "forecast"]

/-- EMAIL keyword group. -/
def email_keywords : List String := ["email", "send mail", "compose"]

/-- WEBSEARCH keyword group. -/
def websearch_keywords : List String := ["search", "lookup", "find information"]

/-- WEBSCRAPE keyword group. -/
def webscrape_keywords : List String := ["scrape", "extract", "analyze url"]

/-- TODO keyword group. -/
def todo_keywords : List String := ["todo", "task", "reminder"]

/-- REALTIME keyword group. -/
def realtime_keywords : List String := ["realtime", "current", "now"]

/-- `TaskRouter.classify_request(text)` (`backend/opencode/agent.py:53`):
lower-case the text, walk the `patterns` dict in insertion order
(WEATHER, EMAIL, WEBSEARCH, WEBSCRAPE, TODO, REALTIME); the first group
with a keyword contained in the text wins, its context regex populates
`details`, and the scan stops (`break`).  With no match the defaults
`("CONVERSATION", {})` survive. -/
def classify_request (text : String) : PyTask :=
  let t := pyLower text
  let cs := t.toList
  if weather_keywords.any (fun kw => containsStr t kw) then
    ⟨"WEATHER", ctxDetails (searchWeatherCtx cs)⟩
  else if email_keywords.any (fun kw => containsStr t kw) then
    ⟨"EMAIL", ctxDetails (searchEmailCtx cs)⟩
  else if websearch_keywords.any (fun kw => containsStr t kw) then
    ⟨"WEBSEARCH", ctxDetails (searchForCtx cs)⟩
  else if webscrape_keywords.any (fun kw => containsStr t kw) then
    ⟨"WEBSCRAPE", ctxDetails (searchUrlCtx cs)⟩
  else if todo_keywords.any (fun kw => containsStr t kw) then
    ⟨"TODO", ctxDetails (searchAddCtx cs)⟩
  else if realtime_keywords.any (fun kw => containsStr t kw) then
    ⟨"REALTIME", ctxDetails (searchInfoOnCtx cs)⟩
  else ⟨"CONVERSATION", []⟩

end Agent

/-! ## `backend/opencode/agent.py` — `message_handler` (confirmation flow) -/

namespace Agent

/-- `agent.context["pending_email"]`: the pending draft with its
`subject` and `content` entries. -/
structure PendingEmail where
  subject : String
  content : String
deriving DecidableEq

/-- External collaborators of `message_handler`: the mail provider
(`email_service.send_email_via_assistant(to, subject, content)`,
returning the `status` field of its result dict) and the LLM
(`agent.llm.generate(prompt)`). -/
structure AgentEnv where
  send : String → String → String → String
  llm : String → String

/-- Observable outcome of one `message_handler(text)` call: the state of
`agent.context["pending_email"]` afterwards, the
`send_email_via_assistant` invocations made (as `(to, subject, content)`
triples), the `agent.say` utterances, and — when the call fell through
to normal task processing — the classification handed to
`handle_task`.  (The normal path's spoken response, lines 310–321 of
the source, is an output of `handle_task`, modelled separately; it is
elided here.) -/
structure MHOutcome where
  pending : Option PendingEmail
  sends : List (String × String × String)
  said : List String
  routed : Option PyTask
deriving DecidableEq

/-- Normal task processing (`backend/opencode/agent.py:308`): classify
the text and route it; `pending_email` is not touched. -/
def normalProcessing (pending : Option PendingEmail) (text : String) : MHOutcome :=
  { pending := pending, sends := [], said := [],
    routed := some (classify_request text) }

/-- `message_handler(text)` (`backend/opencode/agent.py:275`).  With a
pending email, the lower-cased stripped text is scanned for the
substrings `"confirm"`, `"cancel"`, `"edit"`, in that order:
`confirm` sends the draft to the hard-coded recipient
`"user@example.com"`, reports success or failure, and deletes the
pending entry either way; `cancel` deletes it without sending; `edit`
regenerates content and subject from the old draft via the LLM and
stores them in place, keeping the entry pending.  Any other text — and
any text when nothing is pending — falls through to normal task
processing. -/
def message_handler (env : AgentEnv) (pending : Option PendingEmail)
    (text : String) : MHOutcome :=
  match pending with
  | some email_data =>
    let confirmation := pyStrip (pyLower text)
    if containsStr confirmation "confirm" then
      let status := env.send "user@example.com" email_data.subject email_data.content
      { pending := none,
        sends := [("user@example.com", email_data.subject, email_data.content)],
        said := [if status = "success" then "Email sent successfully."
                 else "Failed to send email. Please try again later."],
        routed := none }
    else if containsStr confirmation "cancel" then
      { pending := none, sends := [], said := ["Email cancelled."], routed := none }
    else if containsStr confirmation "edit" then
      let email_content := pyStrip (env.llm ("Edit the email content: " ++ email_data.content))
      let email_subject := pyStrip (env.llm ("Edit the email subject: " ++ email_data.subject))
      { pending := some ⟨email_subject, email_content⟩, sends := [],
        said := ["Email edited."], routed := none }
    else normalProcessing pending text
  | none => normalProcessing none text

end Agent

/-! ## Theorems -/

/-- C6: for every key `k` and value `v`, `put(k, v, ttl)` followed by
`get(k)` before `ttl` has elapsed returns `v`, and `get(k)` after `ttl`
has elapsed returns a miss, with the expired entry purged on read. -/
theorem cache_roundtrip {α : Type} (c : TTLCacheM α) (k : String) (v : α)
    (now ttl t : Nat) :
    (t < now + ttl → (cacheGet (cachePut c now ttl k v) t k).1 = some v) ∧
    (now + ttl ≤ t →
      (cacheGet (cachePut c now ttl k v) t k).1 = none ∧
      ((cacheGet (cachePut c now ttl k v) t k).2.entries.find?
          (fun e => e.1 = k)) = none) := by
  have hrest : ∀ e ∈ (cachePut c now ttl k v).entries.tail, e.1 ≠ k := by
    intro e he
    unfold cachePut at he
    simp only [List.tail_cons] at he
    have hmem : e ∈ c.entries.filter (fun e => e.1 ≠ k) := by
      by_cases hlen : CACHE_MAXSIZE ≤ (c.entries.filter (fun e => e.1 ≠ k)).length
      · simp only [hlen, if_true] at he
        exact (List.dropLast_sublist _).subset he
      · simpa only [hlen, if_false] using he
    have := List.mem_filter.mp hmem
    simpa using this.2
  have hhead : (cachePut c now ttl k v).entries =
      (k, v, now + ttl) :: (cachePut c now ttl k v).entries.tail := by
    unfold cachePut
    rfl
  constructor
  · intro hlt
    unfold cacheGet
    rw [hhead]
    simp [List.filter_cons, hlt]
  · intro hge
    have hnone : ((cachePut c now ttl k v).entries.filter
        (fun e => t < e.2.2)).find? (fun e => e.1 = k) = none := by
      rw [List.find?_eq_none]
      intro x hx
      have hx' := List.mem_filter.mp hx
      rw [hhead] at hx'
      rcases List.mem_cons.mp hx'.1 with h | h
      · have ht : t < now + ttl := by
          subst h
          simpa using hx'.2
        exact absurd ht (by omega)
      · simpa using hrest x h
    refine ⟨?_, ?_⟩
    · unfold cacheGet
      simp only [hnone]
      rfl
    · unfold cacheGet
      simpa using hnone

/-- C6 witness: a concrete round trip through the cache at `ttl = 5`. -/
theorem cache_roundtrip_witness :
    (cacheGet (cachePut (⟨[]⟩ : TTLCacheM Nat) 0 5 "k" 7) 4 "k").1 = some 7 ∧
    (cacheGet (cachePut (⟨[]⟩ : TTLCacheM Nat) 0 5 "k" 7) 5 "k").1 = none :=
  ⟨(cache_roundtrip ⟨[]⟩ "k" 7 0 5 4).1 (by decide),
   ((cache_roundtrip ⟨[]⟩ "k" 7 0 5 5).2 (by decide)).1⟩

/-- C9: for every location whose normalized form is a known
country-level alias, a cache-missing `get_current_time` call returns a
success result whose data concatenates one current-time reading per
timezone of that country, and stores the result in the cache with the
600-second (10-minute) TTL. -/
theorem country_alias_time_resolution (env : RTS.TimeEnv)
    (cache : TTLCacheM PyDict) (now : Nat) (location : String)
    (zones : List String)
    (hzone : RTS.country_zones.lookup (pyLower (pyStrip location)) = some zones)
    (hmiss : (cacheGet cache now ("time_" ++ pyLower (pyStrip location))).1 = none) :
    (RTS.get_current_time env cache now location).1 =
      [("status", "success"),
       ("data", String.intercalate "\n"
         (zones.map (fun z => "• " ++ RTS.lastComp z ++ ": " ++ env.fmtTime z))),
       ("type", "time"), ("source", "timezone_db"), ("timestamp", env.utcnow)] ∧
    ((RTS.get_current_time env cache now location).2.entries.find?
        (fun e => e.1 = "time_" ++ pyLower (pyStrip location))) =
      some ("time_" ++ pyLower (pyStrip location),
            (RTS.get_current_time env cache now location).1, now + CACHE_TTL) := by
  rcases hcg : cacheGet cache now ("time_" ++ pyLower (pyStrip location)) with ⟨fst, snd⟩
  rw [hcg] at hmiss
  have hf : fst = none := hmiss
  subst hf
  unfold RTS.get_current_time
  simp only [hcg, hzone]
  refine ⟨trivial, ?_⟩
  unfold cachePut
  simp [List.find?]

/-- A concrete time environment whose external time API (geocoder and
timeapi.io) always fails and whose pytz database knows no verbatim zone
names, used to witness/instantiate the time-resolution theorems. -/
def tEnvW : RTS.TimeEnv :=
  { fmtTime := fun z => "07:00 AM " ++ z, utcnow := "TS",
    isKnownZone := fun _ => false,
    nominatim := fun _ => .error (), timeApi := fun _ _ => .error () }

/-- C9 witness: resolving `" US "` against an empty cache yields the
four concatenated zone readings and caches them for 600 seconds. -/
theorem country_alias_time_resolution_witness :
    (RTS.get_current_time tEnvW ⟨[]⟩ 0 " US ").1 =
      [("status", "success"),
       ("data", String.intercalate "\n"
         (["America/New_York", "America/Chicago", "America/Denver",
           "America/Los_Angeles"].map
             (fun z => "• " ++ RTS.lastComp z ++ ": " ++ tEnvW.fmtTime z))),
       ("type", "time"), ("source", "timezone_db"), ("timestamp", tEnvW.utcnow)] ∧
    ((RTS.get_current_time tEnvW ⟨[]⟩ 0 " US ").2.entries.find?
        (fun e => e.1 = "time_" ++ pyLower (pyStrip " US "))) =
      some ("time_" ++ pyLower (pyStrip " US "),
            (RTS.get_current_time tEnvW ⟨[]⟩ 0 " US ").1, 0 + CACHE_TTL) :=
  country_alias_time_resolution tEnvW ⟨[]⟩ 0 " US "
    ["America/New_York", "America/Chicago", "America/Denver", "America/Los_Angeles"]
    (by decide) rfl

/-- C1: for every task category, a selected handler that does not
complete within the configured timeout still makes `handle_task` return
(a total function in this model), and the returned value is the
timeout-specific error message. -/
theorem timeout_returns_error_result (timeout : Nat) (env : Agent.RouterEnv)
    (task_type : String)
    (h : ¬ Agent.completesWithin (Agent.selectedHandler env task_type) timeout) :
    Agent.handle_task timeout env task_type = some Agent.timeoutMessage := by
  unfold Agent.handle_task
  cases hsel : Agent.selectedHandler env task_type with
  | diverges => rfl
  | completes d r =>
    have hd : ¬ d ≤ timeout := fun hle => h ⟨d, r, hsel, hle⟩
    simp [hd]

/-- A router environment in which every handler hangs forever. -/
def envDiv : Agent.RouterEnv :=
  { webSearch := .diverges, realTime := .diverges, email := .diverges,
    todo := .diverges, weather := .diverges, webScrape := .diverges,
    conversation := .diverges }

/-- C1 witness: with every handler hanging, a `WEATHER` task returns the
timeout message. -/
theorem timeout_returns_error_result_witness :
    Agent.handle_task 30 envDiv "WEATHER" = some Agent.timeoutMessage :=
  timeout_returns_error_result 30 envDiv "WEATHER" (by
    rintro ⟨d, r, heq, -⟩
    have hdiv : Agent.selectedHandler envDiv "WEATHER" = .diverges := rfl
    rw [hdiv] at heq
    exact Agent.HandlerOutcome.noConfusion heq)

/-- C4: both routers convert a handler exception into an error result
instead of propagating it: `handle_task` returns the apology string
built from the exception text, and `analyze_prompt_and_route_task`
returns a dict with `status="error"` whenever the routed collaborator
raises.  (Both embeddings are total functions, so no invocation fails
to return a value.) -/
theorem router_catches_handler_exceptions :
    (∀ (timeout : Nat) (env : Agent.RouterEnv) (task_type : String)
        (d : Nat) (e : String),
        Agent.selectedHandler env task_type = .completes d (.error e) →
        d ≤ timeout →
        Agent.handle_task timeout env task_type =
          some ("Sorry, I encountered an error: " ++ e)) ∧
    (∀ (env : Tasks.TasksEnv) (user_prompt : String) (exc : Tasks.PyExc),
        Tasks.routedCall env (Tasks.classify_request user_prompt) user_prompt =
          .error exc →
        (Tasks.analyze_prompt_and_route_task env user_prompt).lookup "status" =
          some "error") := by
  constructor
  · intro timeout env task_type d e hsel hle
    unfold Agent.handle_task
    rw [hsel]
    simp [hle]
  · intro env user_prompt exc h
    unfold Tasks.analyze_prompt_and_route_task
    rw [h]
    cases exc <;> rfl

/-- A router environment whose weather handler raises `"boom"`
immediately and whose other handlers hang. -/
def envRaise : Agent.RouterEnv :=
  { envDiv with weather := .completes 0 (.error "boom") }

/-- A tasks-router environment in which every collaborator raises a
generic exception. -/
def envTasksRaise : Tasks.TasksEnv :=
  { real_time_search := fun _ => .error (.other "boom"),
    web_search := fun _ => .error (.other "boom"),
    send_email_interactive := fun _ => .error (.other "boom"),
    todo_process := fun _ => .error (.other "boom"),
    get_weather := fun _ => .error (.other "boom"),
    generate_response := .error (.other "boom"),
    generate_response_unknown := .error (.other "boom") }

/-- C4 witness: a raising weather handler yields the apology string in
`handle_task`, and a raising `get_weather` collaborator yields an
error-status dict in `analyze_prompt_and_route_task`. -/
theorem router_catches_handler_exceptions_witness :
    Agent.handle_task 30 envRaise "WEATHER" =
      some ("Sorry, I encountered an error: " ++ "boom") ∧
    (Tasks.analyze_prompt_and_route_task envTasksRaise "weather in paris").lookup
        "status" = some "error" :=
  ⟨router_catches_handler_exceptions.1 30 envRaise "WEATHER" 0 "boom" rfl
     (by decide),
   router_catches_handler_exceptions.2 envTasksRaise "weather in paris"
     (.other "boom") rfl⟩

/-- A concrete environment for `real_time_search` in which Gemini is up,
the analysis step parses the query as a category-`time` request for the
unmapped location `"atlantis"`, and the Brave web search would even
succeed. -/
def envC2 : RTS.RTEnv :=
  { geminiOk := true,
    analysis := fun _ => .ok [("type", "time"), ("location", "atlantis")],
    brave := fun _ => .ok [⟨"t", "u", none⟩],
    utcnow := "TS" }

/-- C2 counterexample: for the non-empty category-`time` query
`"what time is it in atlantis"` whose location is in neither local
timezone-alias table and whose external time API fails (`tEnvW`), the
subsystem returns the terminal error result (`status="error"`), not the
web-search fallback (`status="partial"`): `real_time_search` never
reaches a time handler (its handler-table construction raises
`NameError`, caught as `"Failed to process request"`), and even the
direct `get_current_time` path returns
`error_response("Could not determine time for this location")` rather
than cascading to `fallback_search`. -/
theorem time_api_failure_goes_to_terminal_error :
    RTS.country_zones.lookup "atlantis" = none ∧
    RTS.timezone_mappings.lookup "atlantis" = none ∧
    (RTS.get_current_time tEnvW ⟨[]⟩ 0 "atlantis").1 =
      error_response "TS" "Could not determine time for this location" ∧
    RTS.real_time_search envC2 "what time is it in atlantis" =
      error_response "TS" "Failed to process request" ∧
    (RTS.real_time_search envC2 "what time is it in atlantis").lookup "status" =
      some "error" ∧
    "what time is it in atlantis" ≠ "" := by
  refine ⟨by decide, by decide, by decide, by decide, by decide, by decide⟩

/-- C2 amended: whenever the Gemini analysis of a query parses and
validates (in particular for every category-`time` query, whatever its
location and whatever the external time API would do), `real_time_search`
returns the terminal error result `"Failed to process request"`; the
generic web-search fallback is reached exactly when the analysis step
fails to parse or fails validation, and it carries `status="partial"`
when the web search succeeds.  An empty query is not special-cased
anywhere. -/
theorem real_time_search_tier_behavior (env : RTS.RTEnv) (q : String)
    (hg : env.geminiOk = true) :
    (∀ info, env.analysis q = .ok info → RTS.validate_request_info info = true →
        RTS.real_time_search env q =
          error_response env.utcnow "Failed to process request") ∧
    (∀ info, env.analysis q = .ok info → RTS.validate_request_info info = false →
        RTS.real_time_search env q = RTS.fallback_search env q) ∧
    (env.analysis q = .error () →
        RTS.real_time_search env q = RTS.fallback_search env q) ∧
    (∀ rs, env.brave q = .ok rs →
        (RTS.fallback_search env q).lookup "status" = some "partial") := by
  refine ⟨?_, ?_, ?_, ?_⟩
  · intro info ha hv
    unfold RTS.real_time_search
    rw [hg, ha]
    simp [hv]
  · intro info ha hv
    unfold RTS.real_time_search
    rw [hg, ha]
    simp [hv]
  · intro ha
    unfold RTS.real_time_search
    rw [hg, ha]
    simp
  · intro rs hb
    unfold RTS.fallback_search
    rw [hb]
    rfl

/-- An environment whose analysis step fails to parse and whose web
search succeeds with no hits. -/
def envC2w : RTS.RTEnv :=
  { geminiOk := true, analysis := fun _ => .error (),
    brave := fun _ => .ok [], utcnow := "TS" }

/-- C2 amended, witness: a failed analysis falls back to the web search,
whose result has `status="partial"`. -/
theorem real_time_search_tier_behavior_witness :
    RTS.real_time_search envC2w "query" = RTS.fallback_search envC2w "query" ∧
    (RTS.fallback_search envC2w "query").lookup "status" = some "partial" :=
  ⟨(real_time_search_tier_behavior envC2w "query" rfl).2.2.1 rfl,
   (real_time_search_tier_behavior envC2w "query" rfl).2.2.2 [] rfl⟩

/-- A concrete message-handler environment: the mail provider reports
success and the LLM echoes its prompt. -/
def envSendOk : Agent.AgentEnv :=
  { send := fun _ _ _ => "success", llm := fun p => p }

/-- C3 counterexample: the utterance `"cancel confirm"` contains a
"cancel" signal, yet the pending email is executed (sent), not
discarded: the `confirm` check runs first (`backend/opencode/agent.py:279`),
so the claim's cancel clause fails as universally stated. -/
theorem cancel_signal_still_executes :
    containsStr (pyStrip (pyLower "cancel confirm")) "cancel" = true ∧
    (Agent.message_handler envSendOk (some ⟨"s", "c"⟩) "cancel confirm").sends =
      [("user@example.com", "s", "c")] ∧
    (Agent.message_handler envSendOk (some ⟨"s", "c"⟩) "cancel confirm").pending =
      none := by
  refine ⟨by decide, by decide, by decide⟩

/-- C3 amended: in state PENDING the three signals are tested in the
fixed order confirm, cancel, edit on the lower-cased stripped utterance:
a "confirm" signal executes the pending action (one send of the draft)
and destroys it; a "cancel" signal without a "confirm" signal discards
it without executing; an "edit" signal without either regenerates
subject and content via the LLM in place, and the action stays
pending. -/
theorem confirmation_transitions (env : Agent.AgentEnv)
    (p : Agent.PendingEmail) (text : String) :
    (containsStr (pyStrip (pyLower text)) "confirm" = true →
      (Agent.message_handler env (some p) text).pending = none ∧
      (Agent.message_handler env (some p) text).sends =
        [("user@example.com", p.subject, p.content)]) ∧
    (containsStr (pyStrip (pyLower text)) "confirm" = false →
      containsStr (pyStrip (pyLower text)) "cancel" = true →
      Agent.message_handler env (some p) text =
        { pending := none, sends := [], said := ["Email cancelled."],
          routed := none }) ∧
    (containsStr (pyStrip (pyLower text)) "confirm" = false →
      containsStr (pyStrip (pyLower text)) "cancel" = false →
      containsStr (pyStrip (pyLower text)) "edit" = true →
      Agent.message_handler env (some p) text =
        { pending := some
            ⟨pyStrip (env.llm ("Edit the email subject: " ++ p.subject)),
             pyStrip (env.llm ("Edit the email content: " ++ p.content))⟩,
          sends := [], said := ["Email edited."], routed := none }) := by
  refine ⟨?_, ?_, ?_⟩
  · intro h1
    unfold Agent.message_handler
    simp [h1]
  · intro h1 h2
    unfold Agent.message_handler
    simp [h1, h2]
  · intro h1 h2 h3
    unfold Agent.message_handler
    simp [h1, h2, h3]

/-- C3 amended, witness: the three transitions at the concrete
utterances `"confirm"`, `"cancel"`, `"edit"`. -/
theorem confirmation_transitions_witness :
    ((Agent.message_handler envSendOk (some ⟨"s", "c"⟩) "confirm").pending = none ∧
     (Agent.message_handler envSendOk (some ⟨"s", "c"⟩) "confirm").sends =
       [("user@example.com", "s", "c")]) ∧
    (Agent.message_handler envSendOk (some ⟨"s", "c"⟩) "cancel" =
      { pending := none, sends := [], said := ["Email cancelled."],
        routed := none }) ∧
    (Agent.message_handler envSendOk (some ⟨"s", "c"⟩) "edit" =
      { pending := some ⟨"Edit the email subject: s", "Edit the email content: c"⟩,
        sends := [], said := ["Email edited."], routed := none }) :=
  ⟨(confirmation_transitions envSendOk ⟨"s", "c"⟩ "confirm").1 (by decide),
   (confirmation_transitions envSendOk ⟨"s", "c"⟩ "cancel").2.1 (by decide)
     (by decide),
   (confirmation_transitions envSendOk ⟨"s", "c"⟩ "edit").2.2 (by decide)
     (by decide) (by decide)⟩

/-- C5: in state PENDING, an utterance containing none of the three
signals leaves the pending action exactly as it was (not destroyed, not
mutated), performs no send, and is independently reclassified and
routed as a fresh request. -/
theorem unrelated_utterance_preserves_pending (env : Agent.AgentEnv)
    (p : Agent.PendingEmail) (text : String)
    (hc : containsStr (pyStrip (pyLower text)) "confirm" = false)
    (hk : containsStr (pyStrip (pyLower text)) "cancel" = false)
    (he : containsStr (pyStrip (pyLower text)) "edit" = false) :
    Agent.message_handler env (some p) text =
      { pending := some p, sends := [], said := [],
        routed := some (Agent.classify_request text) } := by
  unfold Agent.message_handler Agent.normalProcessing
  simp [hc, hk, he]

/-- C5 witness: the unrelated utterance `"hello there"` leaves the draft
pending and is classified afresh (as CONVERSATION). -/
theorem unrelated_utterance_preserves_pending_witness :
    Agent.message_handler envSendOk (some ⟨"s", "c"⟩) "hello there" =
      { pending := some ⟨"s", "c"⟩, sends := [], said := [],
        routed := some ⟨"CONVERSATION", []⟩ } :=
  unrelated_utterance_preserves_pending envSendOk ⟨"s", "c"⟩ "hello there"
    (by decide) (by decide) (by decide)

/-- C10: in state PENDING, a "confirm" utterance destroys the pending
action and returns the state to NONE for every mail-provider outcome —
in particular when the send reports failure — after performing exactly
the one send of the draft; the failed draft is not retained. -/
theorem confirm_destroys_pending_even_on_failure (env : Agent.AgentEnv)
    (p : Agent.PendingEmail) (text : String)
    (h : containsStr (pyStrip (pyLower text)) "confirm" = true) :
    (Agent.message_handler env (some p) text).pending = none ∧
    (Agent.message_handler env (some p) text).sends =
      [("user@example.com", p.subject, p.content)] := by
  unfold Agent.message_handler
  simp [h]

/-- A message-handler environment whose mail provider always reports
failure. -/
def envSendFail : Agent.AgentEnv :=
  { send := fun _ _ _ => "error", llm := fun p => p }

/-- C10 witness: with a failing mail provider, `"confirm"` still sends
once and destroys the pending draft. -/
theorem confirm_destroys_pending_even_on_failure_witness :
    (Agent.message_handler envSendFail (some ⟨"s", "c"⟩) "confirm").pending =
      none ∧
    (Agent.message_handler envSendFail (some ⟨"s", "c"⟩) "confirm").sends =
      [("user@example.com", "s", "c")] :=
  confirm_destroys_pending_even_on_failure envSendFail ⟨"s", "c"⟩ "confirm"
    (by decide)

/-- C7: evaluation at the failing input.  The `backend/works.py`
classifier returns Python `None` (not a Task) for the email prompt
`"send an email to bob"` — its email branch calls `sendemail()` and
falls off the end of the function — contradicting the claim that
classify always yields a Task with a non-empty category, while the
sibling classifier in `backend/tasks.py` does satisfy it (its category
is one of six non-empty literals for every input). -/
theorem works_classifier_returns_none_on_email :
    Works.classify_request "send an email to bob" = none ∧
    (∀ s : String, (Tasks.classify_request s).type ≠ "") := by
  refine ⟨by decide, ?_⟩
  intro s
  unfold Tasks.classify_request
  dsimp only
  split_ifs <;> simp

/-- C8: for every utterance the agent classifier maps to category
`EMAIL`: when the recipient-address pattern `to (\w+@\w+\.\w+)` matches
the lower-cased text, `details` carries that address under `"query"`;
when it does not match, `details` is empty (and the category is still
`EMAIL` by hypothesis). -/
theorem email_category_details (text : String)
    (h : (Agent.classify_request text).type = "EMAIL") :
    (∀ addr, Agent.searchEmailCtx (pyLower text).toList = some addr →
        (Agent.classify_request text).details =
          [("query", pyStrip (String.mk addr))]) ∧
    (Agent.searchEmailCtx (pyLower text).toList = none →
        (Agent.classify_request text).details = []) := by
  have hshape : Agent.classify_request text =
      ⟨"EMAIL", Agent.ctxDetails (Agent.searchEmailCtx (pyLower text).toList)⟩ := by
    by_cases h1 :
        (Agent.weather_keywords.any fun kw => containsStr (pyLower text) kw) = true
    · exfalso
      simp [Agent.classify_request, h1] at h
    · by_cases h2 :
          (Agent.email_keywords.any fun kw => containsStr (pyLower text) kw) = true
      · simp [Agent.classify_request, h1, h2]
      · exfalso
        by_cases h3 :
            (Agent.websearch_keywords.any fun kw => containsStr (pyLower text) kw) = true
        · simp [Agent.classify_request, h1, h2, h3] at h
        · by_cases h4 :
              (Agent.webscrape_keywords.any fun kw => containsStr (pyLower text) kw) = true
          · simp [Agent.classify_request, h1, h2, h3, h4] at h
          · by_cases h5 :
                (Agent.todo_keywords.any fun kw => containsStr (pyLower text) kw) = true
            · simp [Agent.classify_request, h1, h2, h3, h4, h5] at h
            · by_cases h6 :
                  (Agent.realtime_keywords.any fun kw => containsStr (pyLower text) kw) = true
              · simp [Agent.classify_request, h1, h2, h3, h4, h5, h6] at h
              · simp [Agent.classify_request, h1, h2, h3, h4, h5, h6] at h
  constructor
  · intro addr ha
    rw [hshape, ha]
    rfl
  · intro hn
    rw [hshape, hn]
    rfl

/-- C8 witness: `"send mail to bob@example.com"` is classified `EMAIL`
with the address extracted into `details["query"]`. -/
theorem email_category_details_witness :
    (Agent.classify_request "send mail to bob@example.com").details =
      [("query", "bob@example.com")] :=
  (email_category_details "send mail to bob@example.com" (by decide)).1
    "bob@example.com".toList (by decide)
